import Mathlib

/-
Verification of the two publish hooks of the tk-premiere repository:
hooks/tk-multi-publish2/basic/publish_render.py (class PremiereUploadVersionPlugin)
and hooks/tk-multi-publish2/basic/publish_xml.py (class PremiereUploadEDLPlugin).

The embedding is shallow: each lifecycle method (accept, validate, publish)
becomes a Lean function over an explicit environment of host collaborators
(engine, templates, tracking-database client, superclass hooks).  External
side effects (export commands, database create/upload, item property writes)
are recorded in an effect trace; log calls are recorded in a log list;
Python exceptions are modelled with Except.

Python name resolution matters here: publish_xml.py uses `re.findall` but
never imports `re`, and both files raise `ProjectUnsavedError` without a
definition or an import of that name.  A method body evaluating such a name
raises NameError at run time.  The embedding records each module's global
names (exactly the names its imports and module-level definitions bind) and
routes the affected expressions through that environment.
-/

namespace TkPremiere

/-- Python exceptions that the transcribed code paths can raise. -/
inductive PyExc
  | nameError (n : String)
  | indexError
  | keyError (k : String)
  | projectUnsavedError (msg : String)
  deriving DecidableEq, Repr

/-- A tracking-database entity reference (the dictionaries with type and id
that context.entity, context.project and context.task hold). -/
structure Entity where
  etype : String
  id : Nat
  deriving DecidableEq, Repr

/-- The save callback picked by the private get-save-as-action helper:
engine.save_as by default, or workfiles2's show_file_save_dlg when that app
is configured and has the attribute. -/
inductive Callback
  | engineSaveAs
  | showFileSaveDlg
  deriving DecidableEq, Repr

/-- The `extra` dictionaries passed to logger calls.  An action-button dict
carries a label, a tooltip and a callback; in validate's work-template
warning the callback slot holds the whole save-as action dict (as in the
source), hence the recursive constructor. -/
inductive LogExtra
  | actionButton (label : String) (tooltip : String) (callback : LogExtra)
  | callbackFn (c : Callback)
  deriving DecidableEq, Repr

inductive LogLevel
  | debug
  | info
  | warning
  | error
  deriving DecidableEq, Repr

structure LogEntry where
  level : LogLevel
  msg : String
  extra : Option LogExtra
  deriving DecidableEq, Repr

/-- Fields dictionary passed to template.apply_fields: the mapping returned
by context.as_template_fields plus the keys name and version set by the
plugin code. -/
structure TFields where
  base : List (String × String)
  name : String
  version : Nat

/-- A toolkit template object: it can validate a concrete path against the
pattern and render a path from a field mapping.  apply_fields returning none
models the absent/None rendered path that publish checks for. -/
structure Template where
  tname : String
  validatePath : String → Bool
  applyFields : TFields → Option String

/-- The publish-data dictionary stored under item.properties["sg_publish_data"].
Its framework-owned content is opaque (blob); the plugin writes the
upstream_published_files key. -/
structure PublishData where
  blob : String
  upstreamPublishedFiles : Option Entity
  deriving DecidableEq, Repr

/-- A record returned by the tracking-database create call. -/
structure SGRecord where
  etype : String
  id : Nat
  deriving DecidableEq, Repr

/-- The Version payload the movie plugin builds and passes to create. -/
structure VersionData where
  project : Option Entity
  code : String
  description : String
  entity : Option Entity
  sgTask : Option Entity
  sgPathToMovie : String
  publishedFiles : Option (List PublishData)
  deriving DecidableEq, Repr

/-- item.context: the entity, project and task the item is being published
against.  none models Python None. -/
structure Context where
  entity : Option Entity
  project : Option Entity
  task : Option Entity
  deriving DecidableEq, Repr

/-- The keys of item.properties that the two hooks read or write.  A none
field models the key being absent from the mapping (dict lookup on it raises
KeyError; .get returns None). -/
structure Props where
  workTemplate : Option Template
  publishTemplate : Option Template
  path : Option String
  publishType : Option String
  sgPublishData : Option PublishData
  publishedRenderings : Option (List PublishData)
  sgVersionData : Option SGRecord
  uploadPath : Option String

/-- The mutable item object threaded through the lifecycle methods. -/
structure Item where
  name : String
  description : String
  context : Context
  properties : Props
  contextChangeAllowed : Bool

/-- The settings mapping.  Both plugins declare the "Publish Template"
setting; publishTemplateValue is settings.get("Publish Template").value
(none models None). -/
structure Settings where
  publishTemplateValue : Option String

/-- The dictionary accept returns. -/
structure AcceptResult where
  accepted : Bool
  checked : Bool
  deriving DecidableEq, Repr

/-- Externally visible actions performed by publish, in call order: the two
Adobe export-bridge commands, the superclass publish registration, the
tracking-database create and upload calls, and writes to item attributes or
item.properties (recorded by key name). -/
inductive Effect
  | exportAsMediaDirect (path : Option String) (preset : String) (fmt : Nat)
  | exportAsFinalCutProXML (path : Option String) (fmt : Nat)
  | superPublish
  | sgCreate (etype : String) (vd : VersionData)
  | sgUpload (etype : String) (id : Nat) (path : String) (field : String)
  | setProp (key : String)
  deriving DecidableEq, Repr

/-- State accumulated by a publish run: the item after mutation, the log
entries and the effect trace. -/
structure PubState where
  item : Item
  logs : List LogEntry
  trace : List Effect

/-- The host collaborators both hooks call out to: the engine (project_path,
template lookup, apps), sgtk path normalization, os.path.basename, the
publisher path utilities, the superclass hook methods, and the
tracking-database client.  projectPath = "" models an unsaved project
(engine.project_path is None or empty, both falsy). -/
structure Env where
  projectPath : String
  normalize : String → String
  basename : String → String
  filenameOf : String → String
  getTemplateByName : Option String → Option Template
  asTemplateFields : Context → Template → List (String × String)
  apps : List String
  hasShowFileSaveDlg : Bool
  superValidate : Settings → Item → Bool
  superPublish : Props → Props
  create : VersionData → SGRecord

/-- Global names bound at module scope in publish_render.py: its import
lines (os, re, pprint, tempfile, uuid, sys, sgtk, tank_vendor.six) and its
module-level definitions.  ProjectUnsavedError is not among them. -/
def publishRenderModuleGlobals : List String :=
  ["os", "re", "pprint", "tempfile", "uuid", "sys", "sgtk", "six",
   "HookBaseClass", "PremiereUploadVersionPlugin"]

/-- Global names bound at module scope in publish_xml.py: its import lines
(os, pprint, tempfile, uuid, sys, sgtk, tank_vendor.six) and its
module-level definitions.  Neither re nor ProjectUnsavedError is among
them. -/
def publishXmlModuleGlobals : List String :=
  ["os", "pprint", "tempfile", "uuid", "sys", "sgtk", "six",
   "HookBaseClass", "PremiereUploadEDLPlugin"]

def publishRenderResolves (n : String) : Bool := n ∈ publishRenderModuleGlobals

def publishXmlResolves (n : String) : Bool := n ∈ publishXmlModuleGlobals

/-- Python truthiness of a string-or-None value (None and "" are falsy). -/
def pyTruthyStr : Option String → Bool
  | none => false
  | some s => s != ""

/-- Python lst[-1] as a total function: the last element, or none when the
list is empty (where the source raises IndexError). -/
def pyLast {α : Type} : List α → Option α
  | [] => none
  | [a] => some a
  | _ :: b :: t => pyLast (b :: t)

/-- Python str.split(sep) for a one-character separator, on character
lists: "".split is [""], separators produce empty pieces. -/
def splitOnChar (sep : Char) : List Char → List (List Char)
  | [] => [[]]
  | c :: rest =>
    if c = sep then
      [] :: splitOnChar sep rest
    else
      match splitOnChar sep rest with
      | [] => [[c]]
      | h :: t => (c :: h) :: t

/-- Python int() on a run of decimal digits (leading zeros allowed). -/
def decimalValue (l : List Char) : Nat :=
  l.foldl (fun a c => 10 * a + (c.toNat - 48)) 0

/-- Fueled scanner for re.findall(r'v[0-9]+', s): leftmost non-overlapping
matches, each a v followed by a maximal digit run.  Structural recursion on
fuel keeps it kernel-reducible; findVRuns supplies fuel = length. -/
def findVRunsGo : Nat → List Char → List (List Char)
  | 0, _ => []
  | _ + 1, [] => []
  | fuel + 1, c :: rest =>
    if c = 'v' ∧ rest.takeWhile Char.isDigit ≠ [] then
      ('v' :: rest.takeWhile Char.isDigit) :: findVRunsGo fuel (rest.dropWhile Char.isDigit)
    else
      findVRunsGo fuel rest

def findVRuns (l : List Char) : List (List Char) := findVRunsGo l.length l

/-- Fueled scanner for re.findall(r'[0-9]+', s): maximal digit runs. -/
def findDigitRunsGo : Nat → List Char → List (List Char)
  | 0, _ => []
  | _ + 1, [] => []
  | fuel + 1, c :: rest =>
    if c.isDigit then
      (c :: rest.takeWhile Char.isDigit) :: findDigitRunsGo fuel (rest.dropWhile Char.isDigit)
    else
      findDigitRunsGo fuel rest

def findDigitRuns (l : List Char) : List (List Char) := findDigitRunsGo l.length l

/-- Fueled scanner for re.findall(r'[0-9]\x7b3\x7d', s): non-overlapping
three-digit runs, continuing after each match, advancing one character
otherwise. -/
def find3DigitRunsGo : Nat → List Char → List (List Char)
  | 0, _ => []
  | fuel + 1, a :: b :: c :: rest =>
    if a.isDigit ∧ b.isDigit ∧ c.isDigit then
      [a, b, c] :: find3DigitRunsGo fuel rest
    else
      find3DigitRunsGo fuel (b :: c :: rest)
  | _, _ => []

def find3DigitRuns (l : List Char) : List (List Char) := find3DigitRunsGo l.length l

/-- publish_render.py line 267: name = item.name.split('.')[0]. -/
def movieDeriveName (n : String) : String :=
  String.mk ((splitOnChar '.' n.data).headD [])

/-- publish_render.py lines 269-270: the last match of v[0-9]+ in the item
name, then the last digit run of that match, converted to an integer.  none
models the IndexError raised on an empty findall result. -/
def movieDeriveVersion (n : String) : Option Nat :=
  match pyLast (findVRuns n.data) with
  | none => none
  | some m =>
    match pyLast (findDigitRuns m) with
    | none => none
    | some d => some (decimalValue d)

/-- publish_xml.py line 257: name = item.name.split('.')[0]. -/
def edlDeriveName (n : String) : String :=
  String.mk ((splitOnChar '.' n.data).headD [])

/-- publish_xml.py line 259 as intended: the last three-digit run of the
name portion before the first dot, converted to an integer.  The module
never imports re, so this expression is only reached in the embedding when
the name re resolves (it does not); it also documents the intended value. -/
def edlDeriveVersion (n : String) : Option Nat :=
  (pyLast (find3DigitRuns ((splitOnChar '.' n.data).headD []))).map decimalValue

/-- The private get-save-as-action helper, identical in both files: an
action-button dict whose callback is engine.save_as, or workfiles2's
show_file_save_dlg when that app is configured and has the attribute. -/
def getSaveAsAction (env : Env) : LogExtra :=
  LogExtra.actionButton "Save As..." "Save the active project"
    (LogExtra.callbackFn
      (if "tk-multi-workfiles2" ∈ env.apps then
        (if env.hasShowFileSaveDlg then Callback.showFileSaveDlg else Callback.engineSaveAs)
      else Callback.engineSaveAs))

/-- The extra dict of validate's work-template-mismatch warning: a Save File
action button whose callback slot holds the whole save-as action dict (the
tooltip string concatenation lacks a space, as in the source). -/
def mismatchExtra (env : Env) : LogExtra :=
  LogExtra.actionButton "Save File"
    "Save the current Premiere projectto a different file name"
    (getSaveAsAction env)

/-- publish_render.py lines 368-378: prefer context.entity, fall back to
context.project, else None.  Pure: reads only the item. -/
def movieGetVersionEntity (item : Item) : Option Entity :=
  match item.context.entity with
  | some e => some e
  | none =>
    match item.context.project with
    | some p => some p
    | none => none

/-- publish_xml.py lines 297-307: identical helper in the EDL plugin. -/
def edlGetVersionEntity (item : Item) : Option Entity :=
  match item.context.entity with
  | some e => some e
  | none =>
    match item.context.project with
    | some p => some p
    | none => none

/-- publish_render.py accept (lines 122-169): disable context change when a
publish template is configured, warn with a save-as action when the project
path is falsy, log acceptance, and return accepted and checked True. -/
def movieAccept (env : Env) (settings : Settings) (item : Item) :
    AcceptResult × Item × List LogEntry :=
  let item1 :=
    if pyTruthyStr settings.publishTemplateValue then
      { item with contextChangeAllowed := false }
    else item
  let logs1 :=
    if env.projectPath = "" then
      [⟨LogLevel.warning, "The Premiere project has not been saved.",
        some (getSaveAsAction env)⟩]
    else []
  let logs := logs1 ++
    [⟨LogLevel.info, "Premiere \x27Upload for review\x27 plugin accepted.", none⟩]
  (⟨true, true⟩, item1, logs)

/-- publish_xml.py accept (lines 113-160): identical flow; the logged plugin
name is Upload EDL. -/
def edlAccept (env : Env) (settings : Settings) (item : Item) :
    AcceptResult × Item × List LogEntry :=
  let item1 :=
    if pyTruthyStr settings.publishTemplateValue then
      { item with contextChangeAllowed := false }
    else item
  let logs1 :=
    if env.projectPath = "" then
      [⟨LogLevel.warning, "The Premiere project has not been saved.",
        some (getSaveAsAction env)⟩]
    else []
  let logs := logs1 ++
    [⟨LogLevel.info, "Premiere \x27Upload EDL\x27 plugin accepted.", none⟩]
  (⟨true, true⟩, item1, logs)

/-- publish_render.py validate (lines 171-248).  With a falsy project path
it logs an error with the save-as action and executes
raise ProjectUnsavedError(error_msg); that name is not bound in the module,
so the raise itself raises NameError.  Otherwise it normalizes the path,
warns (non-fatally) on a work-template mismatch, stores the resolved publish
template and path on the item, sets item.name to the path basename, and
returns the superclass validation result. -/
def movieValidate (env : Env) (settings : Settings) (item : Item) :
    Except PyExc Bool × Item × List LogEntry :=
  if env.projectPath = "" then
    let errorMsg := "The Premiere project \x27" ++ item.name ++ "\x27 has not been saved."
    let logs := [⟨LogLevel.error, errorMsg, some (getSaveAsAction env)⟩]
    if publishRenderResolves "ProjectUnsavedError" then
      (Except.error (PyExc.projectUnsavedError errorMsg), item, logs)
    else
      (Except.error (PyExc.nameError "ProjectUnsavedError"), item, logs)
  else
    let npath := env.normalize env.projectPath
    let logs :=
      match item.properties.workTemplate with
      | some wt =>
        if !(wt.validatePath npath) then
          [⟨LogLevel.warning,
            "The current project does not match the configured work template.",
            some (mismatchExtra env)⟩]
        else
          [⟨LogLevel.debug, "Work template configured and matches project path.", none⟩]
      | none => [⟨LogLevel.debug, "No work template configured.", none⟩]
    let props1 :=
      match env.getTemplateByName settings.publishTemplateValue with
      | some t => { item.properties with publishTemplate := some t }
      | none => item.properties
    let item1 := { item with name := env.basename npath }
    let item2 := { item1 with properties := { props1 with path := some npath } }
    (Except.ok (env.superValidate settings item2), item2, logs)

/-- publish_xml.py validate (lines 162-239): identical flow to the movie
plugin's validate; ProjectUnsavedError is likewise unbound in this module. -/
def edlValidate (env : Env) (settings : Settings) (item : Item) :
    Except PyExc Bool × Item × List LogEntry :=
  if env.projectPath = "" then
    let errorMsg := "The Premiere project \x27" ++ item.name ++ "\x27 has not been saved."
    let logs := [⟨LogLevel.error, errorMsg, some (getSaveAsAction env)⟩]
    if publishXmlResolves "ProjectUnsavedError" then
      (Except.error (PyExc.projectUnsavedError errorMsg), item, logs)
    else
      (Except.error (PyExc.nameError "ProjectUnsavedError"), item, logs)
  else
    let npath := env.normalize env.projectPath
    let logs :=
      match item.properties.workTemplate with
      | some wt =>
        if !(wt.validatePath npath) then
          [⟨LogLevel.warning,
            "The current project does not match the configured work template.",
            some (mismatchExtra env)⟩]
        else
          [⟨LogLevel.debug, "Work template configured and matches project path.", none⟩]
      | none => [⟨LogLevel.debug, "No work template configured.", none⟩]
    let props1 :=
      match env.getTemplateByName settings.publishTemplateValue with
      | some t => { item.properties with publishTemplate := some t }
      | none => item.properties
    let item1 := { item with name := env.basename npath }
    let item2 := { item1 with properties := { props1 with path := some npath } }
    (Except.ok (env.superValidate settings item2), item2, logs)

/-- The hardcoded encoder preset path of publish_render.py line 278. -/
def moviePresetPath : String :=
  "C:\\Program Files\\Adobe\\Adobe Premiere Pro 2023\\Settings\\EncoderPresets\\ConsolidateAndTranscode\\Match Source - DNxHD.epr"

/-- publish_render.py publish (lines 250-352), transcribed statement by
statement.  Exceptions follow Python semantics: IndexError from [-1] on an
empty findall result, KeyError from missing dict keys.  six.ensure_str is
the identity on str input. -/
def moviePublish (env : Env) (settings : Settings) (item : Item) :
    Except PyExc Unit × PubState :=
  let props1 :=
    match env.getTemplateByName settings.publishTemplateValue with
    | some t => { item.properties with publishTemplate := some t }
    | none => item.properties
  let tr1 :=
    match env.getTemplateByName settings.publishTemplateValue with
    | some _ => [Effect.setProp "publish_template"]
    | none => ([] : List Effect)
  let name := movieDeriveName item.name
  match movieDeriveVersion item.name with
  | none =>
    (Except.error PyExc.indexError, ⟨{ item with properties := props1 }, [], tr1⟩)
  | some version =>
    match props1.publishTemplate with
    | none =>
      (Except.error (PyExc.keyError "publish_template"),
       ⟨{ item with properties := props1 }, [], tr1⟩)
    | some template =>
      let fields : TFields :=
        { base := env.asTemplateFields item.context template,
          name := name, version := version }
      let pathToMovie := template.applyFields fields
      let tr2 := tr1 ++ [Effect.exportAsMediaDirect pathToMovie moviePresetPath 2]
      match pathToMovie with
      | none =>
        (Except.ok (), ⟨{ item with properties := props1 },
          [⟨LogLevel.error, "No render path found", none⟩], tr2⟩)
      | some p =>
        let publishName := env.filenameOf p
        let logs1 := [⟨LogLevel.info, "Creating Version...", none⟩]
        let versionData0 : VersionData :=
          { project := item.context.project, code := publishName,
            description := item.description,
            entity := movieGetVersionEntity item,
            sgTask := item.context.task, sgPathToMovie := p,
            publishedFiles := none }
        let props2 := { props1 with path := some p }
        let props3 := { props2 with publishType := some "Rendered Image" }
        let tr3 := tr2 ++ [Effect.setProp "path", Effect.setProp "publish_type"]
        match props3.sgPublishData with
        | none =>
          (Except.error (PyExc.keyError "sg_publish_data"),
           ⟨{ item with properties := props3 }, logs1, tr3⟩)
        | some pd =>
          let pd1 := { pd with upstreamPublishedFiles := movieGetVersionEntity item }
          let props4 := { props3 with sgPublishData := some pd1 }
          let tr4 := tr3 ++ [Effect.setProp "sg_publish_data"]
          let props5 := env.superPublish props4
          let tr5 := tr4 ++ [Effect.superPublish]
          let publishData := props5.sgPublishData
          let renderingData := props5.publishedRenderings.getD []
          let pfs :=
            (match publishData with
             | some q => [q]
             | none => []) ++ renderingData
          let versionData := { versionData0 with publishedFiles := some pfs }
          let logs2 := logs1 ++ [⟨LogLevel.debug, "Populated Version data...", none⟩]
          let logs3 := logs2 ++ [⟨LogLevel.info, "Creating version for review...", none⟩]
          let tr6 := tr5 ++ [Effect.sgCreate "Version" versionData]
          let versionRec := env.create versionData
          let props6 := { props5 with sgVersionData := some versionRec }
          let tr7 := tr6 ++ [Effect.setProp "sg_version_data"]
          let uploadPath := p
          let logs4 := logs3 ++ [⟨LogLevel.info, "Uploading content...", none⟩]
          let tr8 := tr7 ++
            [Effect.sgUpload "Version" versionRec.id uploadPath "sg_uploaded_movie"]
          let logs5 := logs4 ++ [⟨LogLevel.info, "Upload complete!", none⟩]
          let props7 := { props6 with uploadPath := some uploadPath }
          let tr9 := tr8 ++ [Effect.setProp "upload_path"]
          (Except.ok (), ⟨{ item with properties := props7 }, logs5, tr9⟩)

/-- publish_xml.py publish (lines 241-281), transcribed statement by
statement.  Line 258 evaluates item.name.split('.')[1] (IndexError when the
name has no dot); line 259 then evaluates re.findall, but the module
never imports re, so that statement raises NameError before anything else
runs. -/
def edlPublish (env : Env) (settings : Settings) (item : Item) :
    Except PyExc Unit × PubState :=
  let props1 :=
    match env.getTemplateByName settings.publishTemplateValue with
    | some t => { item.properties with publishTemplate := some t }
    | none => item.properties
  let tr1 :=
    match env.getTemplateByName settings.publishTemplateValue with
    | some _ => [Effect.setProp "publish_template"]
    | none => ([] : List Effect)
  let name := edlDeriveName item.name
  match (splitOnChar '.' item.name.data).get? 1 with
  | none =>
    (Except.error PyExc.indexError, ⟨{ item with properties := props1 }, [], tr1⟩)
  | some _ =>
    if publishXmlResolves "re" then
      match edlDeriveVersion item.name with
      | none =>
        (Except.error PyExc.indexError, ⟨{ item with properties := props1 }, [], tr1⟩)
      | some version =>
        match props1.publishTemplate with
        | none =>
          (Except.error (PyExc.keyError "publish_template"),
           ⟨{ item with properties := props1 }, [], tr1⟩)
        | some template =>
          let fields : TFields :=
            { base := env.asTemplateFields item.context template,
              name := name, version := version }
          let pathToXml := template.applyFields fields
          let tr2 := tr1 ++ [Effect.exportAsFinalCutProXML pathToXml 1]
          match pathToXml with
          | none =>
            (Except.ok (), ⟨{ item with properties := props1 },
              [⟨LogLevel.error, "No render path found", none⟩], tr2⟩)
          | some p =>
            let props2 := { props1 with path := some p }
            let props3 := { props2 with publishType := some "Rendered Image" }
            let tr3 := tr2 ++ [Effect.setProp "path", Effect.setProp "publish_type"]
            let props4 := env.superPublish props3
            let tr4 := tr3 ++ [Effect.superPublish]
            (Except.ok (), ⟨{ item with properties := props4 },
              [⟨LogLevel.info, "Publish complete!", none⟩], tr4⟩)
    else
      (Except.error (PyExc.nameError "re"), ⟨{ item with properties := props1 }, [], tr1⟩)

/-- An empty item.properties mapping. -/
def emptyProps : Props :=
  { workTemplate := none, publishTemplate := none, path := none,
    publishType := none, sgPublishData := none, publishedRenderings := none,
    sgVersionData := none, uploadPath := none }

/-- A template whose apply_fields renders a concrete path. -/
def cTemplateSome : Template :=
  { tname := "premiere_publish",
    validatePath := fun _ => true,
    applyFields := fun f => some ("render_" ++ f.name) }

/-- A template whose apply_fields yields no path and whose validate rejects
every path. -/
def cTemplateNone : Template :=
  { tname := "premiere_publish",
    validatePath := fun _ => false,
    applyFields := fun _ => none }

/-- Host environment of an unsaved project (empty project path). -/
def cEnvUnsaved : Env :=
  { projectPath := "", normalize := id, basename := id, filenameOf := id,
    getTemplateByName := fun _ => none,
    asTemplateFields := fun _ _ => [],
    apps := [], hasShowFileSaveDlg := false,
    superValidate := fun _ _ => true, superPublish := id,
    create := fun _ => ⟨"Version", 42⟩ }

/-- Host environment of a saved project whose configured template renders a
path. -/
def cEnvRender : Env :=
  { projectPath := "P:/proj/scene.prproj", normalize := id, basename := id,
    filenameOf := id,
    getTemplateByName := fun o =>
      match o with
      | some _ => some cTemplateSome
      | none => none,
    asTemplateFields := fun _ _ => [],
    apps := [], hasShowFileSaveDlg := false,
    superValidate := fun _ _ => true, superPublish := id,
    create := fun _ => ⟨"Version", 42⟩ }

/-- Host environment of a saved project whose configured template renders no
path. -/
def cEnvNoneRender : Env :=
  { projectPath := "P:/proj/scene.prproj", normalize := id, basename := id,
    filenameOf := id,
    getTemplateByName := fun o =>
      match o with
      | some _ => some cTemplateNone
      | none => none,
    asTemplateFields := fun _ _ => [],
    apps := [], hasShowFileSaveDlg := false,
    superValidate := fun _ _ => true, superPublish := id,
    create := fun _ => ⟨"Version", 42⟩ }

def cSettingsTmpl : Settings := { publishTemplateValue := some "premiere_publish" }

def cSettingsNone : Settings := { publishTemplateValue := none }

def cContext : Context :=
  { entity := some ⟨"Shot", 12⟩, project := some ⟨"Project", 7⟩,
    task := some ⟨"Task", 3⟩ }

def cPublishData : PublishData := { blob := "registered", upstreamPublishedFiles := none }

/-- A movie-plugin item whose name carries a v-digit version token and whose
properties hold sg_publish_data. -/
def cItemMovie : Item :=
  { name := "shot010_v003.prproj", description := "movie item",
    context := cContext,
    properties := { emptyProps with sgPublishData := some cPublishData },
    contextChangeAllowed := true }

/-- The same movie-plugin item with no sg_publish_data key. -/
def cItemMovieNoKey : Item :=
  { name := "shot010_v003.prproj", description := "movie item",
    context := cContext, properties := emptyProps,
    contextChangeAllowed := true }

/-- An EDL-plugin item whose name holds a dotted three-digit version. -/
def cItemEdl : Item :=
  { name := "shot010.010.prproj", description := "edl item",
    context := cContext, properties := emptyProps,
    contextChangeAllowed := true }

/-- An item whose name contains no dot. -/
def cItemNoDot : Item :=
  { name := "sequencefile", description := "edl item",
    context := cContext, properties := emptyProps,
    contextChangeAllowed := true }

/-- A plain project item. -/
def cItemScene : Item :=
  { name := "scene.prproj", description := "project item",
    context := cContext, properties := emptyProps,
    contextChangeAllowed := true }

/-- An item carrying a work template that rejects the project path. -/
def cItemWork : Item :=
  { name := "scene.prproj", description := "project item",
    context := cContext,
    properties := { emptyProps with workTemplate := some cTemplateNone },
    contextChangeAllowed := true }

/-- Recognizers over the effect trace. -/
def isExportEff : Effect → Bool
  | Effect.exportAsMediaDirect _ _ _ => true
  | Effect.exportAsFinalCutProXML _ _ => true
  | _ => false

/-- Effects that touch the tracking database: the superclass publish
registration, the Version create, and the upload. -/
def isRemoteEff : Effect → Bool
  | Effect.superPublish => true
  | Effect.sgCreate _ _ => true
  | Effect.sgUpload _ _ _ _ => true
  | _ => false

def isSgCreateEff : Effect → Bool
  | Effect.sgCreate _ _ => true
  | _ => false

def isSgUploadEff : Effect → Bool
  | Effect.sgUpload _ _ _ _ => true
  | _ => false

def isSetVersionDataEff : Effect → Bool
  | Effect.setProp k => k == "sg_version_data"
  | _ => false

/-- The item.properties state at the moment the movie plugin delegates to
the superclass publish, for a run that resolved template t, rendered path p
and found publish data pd. -/
def moviePropsAtSuper (item : Item) (t : Template) (p : String) (pd : PublishData) : Props :=
  let pr1 := { item.properties with publishTemplate := some t }
  let pr2 := { pr1 with path := some p }
  let pr3 := { pr2 with publishType := some "Rendered Image" }
  { pr3 with sgPublishData := some { pd with upstreamPublishedFiles := movieGetVersionEntity item } }

/-- The Version payload the movie plugin passes to the tracking-database
create call, for such a run. -/
def movieVersionPayload (env : Env) (item : Item) (t : Template) (p : String)
    (pd : PublishData) : VersionData :=
  let props5 := env.superPublish (moviePropsAtSuper item t p pd)
  let pfs :=
    (match props5.sgPublishData with
     | some q => [q]
     | none => []) ++ props5.publishedRenderings.getD []
  { project := item.context.project, code := env.filenameOf p,
    description := item.description, entity := movieGetVersionEntity item,
    sgTask := item.context.task, sgPathToMovie := p, publishedFiles := some pfs }

/-- The item as both validate methods have rewritten it by the time they
delegate to the superclass validation: publish template resolved and stored
when found, name set to the path basename, path property set. -/
def validateUpdatedItem (env : Env) (settings : Settings) (item : Item) : Item :=
  let npath := env.normalize env.projectPath
  let props1 :=
    match env.getTemplateByName settings.publishTemplateValue with
    | some t => { item.properties with publishTemplate := some t }
    | none => item.properties
  let item1 := { item with name := env.basename npath }
  { item1 with properties := { props1 with path := some npath } }

theorem takeWhileAll (p : Char → Bool) :
    ∀ l : List Char, (∀ c ∈ l, p c = true) → l.takeWhile p = l := by
  intro l h
  induction l with
  | nil => rfl
  | cons c t ih =>
    have hc := h c (List.mem_cons_self c t)
    simp [List.takeWhile_cons, hc]
    exact fun x hx => h x (List.mem_cons_of_mem c hx)

theorem dropWhileAllNil (p : Char → Bool) :
    ∀ l : List Char, (∀ c ∈ l, p c = true) → l.dropWhile p = [] := by
  intro l h
  induction l with
  | nil => rfl
  | cons c t ih =>
    have hc := h c (List.mem_cons_self c t)
    simp [List.dropWhile_cons, hc]
    exact fun x hx => h x (List.mem_cons_of_mem c hx)

theorem takeWhileMemPred (p : Char → Bool) :
    ∀ l : List Char, ∀ c ∈ l.takeWhile p, p c = true := by
  intro l
  induction l with
  | nil => intro c hc; simp [List.takeWhile] at hc
  | cons a t ih =>
    intro c hc
    by_cases ha : p a = true
    · rw [List.takeWhile_cons, if_pos ha] at hc
      rcases List.mem_cons.mp hc with h1 | h2
      · exact h1 ▸ ha
      · exact ih c h2
    · rw [List.takeWhile_cons, if_neg ha] at hc
      exact absurd hc (List.not_mem_nil c)

theorem pyLast_mem {α : Type} : ∀ (l : List α) (a : α), pyLast l = some a → a ∈ l := by
  intro l
  induction l with
  | nil => intro a h; exact absurd h (by simp [pyLast])
  | cons b t ih =>
    intro a h
    cases t with
    | nil =>
      simp [pyLast] at h
      simp [h]
    | cons c u =>
      rw [show pyLast (b :: c :: u) = pyLast (c :: u) from rfl] at h
      exact List.mem_cons_of_mem b (ih a h)

theorem splitOnChar_ne_nil (sep : Char) (l : List Char) : splitOnChar sep l ≠ [] := by
  induction l with
  | nil => simp [splitOnChar]
  | cons c rest ih =>
    by_cases h : c = sep
    · simp [splitOnChar, h]
    · simp only [splitOnChar, if_neg h]
      cases hr : splitOnChar sep rest with
      | nil => simp
      | cons a t => simp

theorem splitOnChar_headD (sep : Char) :
    ∀ l : List Char, (splitOnChar sep l).headD [] = l.takeWhile (fun c => c != sep) := by
  intro l
  induction l with
  | nil => rfl
  | cons c rest ih =>
    by_cases h : c = sep
    · simp [splitOnChar, h, List.takeWhile_cons]
    · cases hr : splitOnChar sep rest with
      | nil => exact absurd hr (splitOnChar_ne_nil sep rest)
      | cons a t =>
        rw [hr] at ih
        simp only [List.headD] at ih
        simp [splitOnChar, if_neg h, hr, List.takeWhile_cons, h, ih]

theorem splitOnChar_of_not_mem (sep : Char) :
    ∀ l : List Char, sep ∉ l → splitOnChar sep l = [l] := by
  intro l
  induction l with
  | nil => intro _; rfl
  | cons c rest ih =>
    intro h
    have hc : ¬ c = sep := fun hh => h (hh ▸ List.mem_cons_self c rest)
    have hrest : sep ∉ rest := fun hm => h (List.mem_cons_of_mem c hm)
    simp only [splitOnChar, if_neg hc, ih hrest]

theorem findVRunsGo_shape :
    ∀ fuel (l : List Char) m, m ∈ findVRunsGo fuel l →
      ∃ ds, m = 'v' :: ds ∧ ds ≠ [] ∧ ∀ c ∈ ds, c.isDigit = true := by
  intro fuel
  induction fuel with
  | zero => intro l m hm; simp [findVRunsGo] at hm
  | succ n ih =>
    intro l m hm
    cases l with
    | nil => simp [findVRunsGo] at hm
    | cons c rest =>
      by_cases hc : c = 'v' ∧ rest.takeWhile Char.isDigit ≠ []
      · rw [findVRunsGo, if_pos hc] at hm
        rcases List.mem_cons.mp hm with h1 | h2
        · exact ⟨rest.takeWhile Char.isDigit, h1, hc.2,
            fun x hx => takeWhileMemPred Char.isDigit rest x hx⟩
        · exact ih _ _ h2
      · rw [findVRunsGo, if_neg hc] at hm
        exact ih _ _ hm

theorem findDigitRunsGo_nil : ∀ fuel, findDigitRunsGo fuel [] = [] := by
  intro fuel
  cases fuel <;> rfl

theorem findDigitRuns_vrun (ds : List Char) (hne : ds ≠ [])
    (hd : ∀ c ∈ ds, c.isDigit = true) : findDigitRuns ('v' :: ds) = [ds] := by
  cases ds with
  | nil => exact absurd rfl hne
  | cons d t =>
    have hdd : d.isDigit = true := hd d (List.mem_cons_self d t)
    have ht : ∀ c ∈ t, c.isDigit = true :=
      fun c hc => hd c (List.mem_cons_of_mem d hc)
    have hv : ('v').isDigit = false := by decide
    simp only [findDigitRuns, List.length_cons, findDigitRunsGo, hv,
      Bool.false_eq_true, if_false, if_pos hdd,
      takeWhileAll Char.isDigit t ht, dropWhileAllNil Char.isDigit t ht,
      findDigitRunsGo_nil]

/-- Claim C1: with an unsaved project (empty project path) both plugins log
an error carrying the save-as action and then raise instead of returning
normally — but the raised exception is NameError for the unbound module
name ProjectUnsavedError, not a ProjectUnsavedError instance; neither file
defines or imports that class, so the raise statement itself fails. -/
theorem claim1_validate_unsaved_raises :
    movieValidate cEnvUnsaved cSettingsNone cItemScene =
      (Except.error (PyExc.nameError "ProjectUnsavedError"), cItemScene,
       [⟨LogLevel.error,
         "The Premiere project \x27scene.prproj\x27 has not been saved.",
         some (getSaveAsAction cEnvUnsaved)⟩]) ∧
    edlValidate cEnvUnsaved cSettingsNone cItemScene =
      (Except.error (PyExc.nameError "ProjectUnsavedError"), cItemScene,
       [⟨LogLevel.error,
         "The Premiere project \x27scene.prproj\x27 has not been saved.",
         some (getSaveAsAction cEnvUnsaved)⟩]) :=
  ⟨rfl, rfl⟩

/-- Claim C2: the EDL plugin's publish never derives a version at all: on
the item name shot010.010.prproj it raises NameError because publish_xml.py
never imports re, while the extraction the line intends (the last
three-digit run before the first dot) would give 10. -/
theorem claim2_edl_version_extraction :
    (edlPublish cEnvRender cSettingsTmpl cItemEdl).1 =
      Except.error (PyExc.nameError "re") ∧
    edlDeriveVersion "shot010.010.prproj" = some 10 :=
  ⟨rfl, rfl⟩

/-- Claim C3: for the movie plugin, when the item name contains at least one
match of v followed by digits (last such match m), the derived version is
the integer value of the digits of m and the derived name is the portion of
the item name before the first dot; in particular shot010_v003.prproj gives
version 3 and name shot010_v003. -/
theorem claim3_movie_version_extraction (s : String) (m : List Char)
    (h : pyLast (findVRuns s.data) = some m) :
    movieDeriveVersion s = some (decimalValue (m.drop 1)) ∧
    movieDeriveName s = String.mk (s.data.takeWhile (fun c => c != '.')) ∧
    movieDeriveVersion "shot010_v003.prproj" = some 3 ∧
    movieDeriveName "shot010_v003.prproj" = "shot010_v003" := by
  have hmem : m ∈ findVRunsGo s.data.length s.data := pyLast_mem _ m h
  obtain ⟨ds, hm, hne, hd⟩ := findVRunsGo_shape s.data.length s.data m hmem
  refine ⟨?_, ?_, rfl, rfl⟩
  · rw [hm] at h
    simp only [movieDeriveVersion, h, findDigitRuns_vrun ds hne hd, pyLast, hm,
      List.drop_succ_cons, List.drop_zero]
  · simp only [movieDeriveName, splitOnChar_headD]

theorem claim3_movie_version_extraction_witness :
    pyLast (findVRuns "shot010_v003.prproj".data) = some ['v', '0', '0', '3'] ∧
    (movieDeriveVersion "shot010_v003.prproj" =
       some (decimalValue (['v', '0', '0', '3'].drop 1)) ∧
     movieDeriveName "shot010_v003.prproj" =
       String.mk ("shot010_v003.prproj".data.takeWhile (fun c => c != '.')) ∧
     movieDeriveVersion "shot010_v003.prproj" = some 3 ∧
     movieDeriveName "shot010_v003.prproj" = "shot010_v003") :=
  ⟨rfl, claim3_movie_version_extraction "shot010_v003.prproj" ['v', '0', '0', '3'] rfl⟩

/-- Claim C5: for every environment, settings and item both plugins' accept
returns accepted and checked true; with an empty project path the logs
additionally carry a warning with the save-as action before the acceptance
info line. -/
theorem claim5_accept_unconditional (env : Env) (settings : Settings) (item : Item) :
    (movieAccept env settings item).1 = ⟨true, true⟩ ∧
    (edlAccept env settings item).1 = ⟨true, true⟩ ∧
    (env.projectPath = "" →
      (movieAccept env settings item).2.2 =
        [⟨LogLevel.warning, "The Premiere project has not been saved.",
          some (getSaveAsAction env)⟩,
         ⟨LogLevel.info, "Premiere \x27Upload for review\x27 plugin accepted.", none⟩] ∧
      (edlAccept env settings item).2.2 =
        [⟨LogLevel.warning, "The Premiere project has not been saved.",
          some (getSaveAsAction env)⟩,
         ⟨LogLevel.info, "Premiere \x27Upload EDL\x27 plugin accepted.", none⟩]) := by
  refine ⟨rfl, rfl, fun h => ?_⟩
  constructor <;> simp [movieAccept, edlAccept, h]

theorem claim5_accept_unconditional_witness :
    cEnvUnsaved.projectPath = "" ∧
    ((movieAccept cEnvUnsaved cSettingsNone cItemScene).1 = ⟨true, true⟩ ∧
     (edlAccept cEnvUnsaved cSettingsNone cItemScene).1 = ⟨true, true⟩ ∧
     (cEnvUnsaved.projectPath = "" →
       (movieAccept cEnvUnsaved cSettingsNone cItemScene).2.2 =
         [⟨LogLevel.warning, "The Premiere project has not been saved.",
           some (getSaveAsAction cEnvUnsaved)⟩,
          ⟨LogLevel.info, "Premiere \x27Upload for review\x27 plugin accepted.", none⟩] ∧
       (edlAccept cEnvUnsaved cSettingsNone cItemScene).2.2 =
         [⟨LogLevel.warning, "The Premiere project has not been saved.",
           some (getSaveAsAction cEnvUnsaved)⟩,
          ⟨LogLevel.info, "Premiere \x27Upload EDL\x27 plugin accepted.", none⟩])) :=
  ⟨rfl, claim5_accept_unconditional cEnvUnsaved cSettingsNone cItemScene⟩

/-- Claim C8: both plugins' version-entity helper returns context.entity
when set, else context.project when set, else none; it is a pure function
of the item. -/
theorem claim8_get_version_entity (item : Item) :
    movieGetVersionEntity item = item.context.entity.or item.context.project ∧
    edlGetVersionEntity item = item.context.entity.or item.context.project := by
  constructor <;>
    cases he : item.context.entity <;>
      cases hp : item.context.project <;>
        simp [movieGetVersionEntity, edlGetVersionEntity, he, hp, Option.or]

/-- Claim C7: when a work template is present and the normalized project
path does not match it, both validates log the warning carrying the save-as
action, do not fail, and return the superclass validation result on the
updated item. -/
theorem claim7_work_template_mismatch_nonfatal (env : Env) (settings : Settings)
    (item : Item) (wt : Template)
    (h1 : ¬ env.projectPath = "")
    (h2 : item.properties.workTemplate = some wt)
    (h3 : wt.validatePath (env.normalize env.projectPath) = false) :
    movieValidate env settings item =
      (Except.ok (env.superValidate settings (validateUpdatedItem env settings item)),
       validateUpdatedItem env settings item,
       [⟨LogLevel.warning,
         "The current project does not match the configured work template.",
         some (mismatchExtra env)⟩]) ∧
    edlValidate env settings item =
      (Except.ok (env.superValidate settings (validateUpdatedItem env settings item)),
       validateUpdatedItem env settings item,
       [⟨LogLevel.warning,
         "The current project does not match the configured work template.",
         some (mismatchExtra env)⟩]) := by
  constructor <;>
  · simp only [movieValidate, edlValidate, validateUpdatedItem, if_neg h1, h2, h3]
    rfl

theorem claim7_work_template_mismatch_nonfatal_witness :
    (¬ cEnvNoneRender.projectPath = "") ∧
    cItemWork.properties.workTemplate = some cTemplateNone ∧
    cTemplateNone.validatePath (cEnvNoneRender.normalize cEnvNoneRender.projectPath) = false ∧
    (movieValidate cEnvNoneRender cSettingsTmpl cItemWork =
      (Except.ok (cEnvNoneRender.superValidate cSettingsTmpl
         (validateUpdatedItem cEnvNoneRender cSettingsTmpl cItemWork)),
       validateUpdatedItem cEnvNoneRender cSettingsTmpl cItemWork,
       [⟨LogLevel.warning,
         "The current project does not match the configured work template.",
         some (mismatchExtra cEnvNoneRender)⟩]) ∧
     edlValidate cEnvNoneRender cSettingsTmpl cItemWork =
      (Except.ok (cEnvNoneRender.superValidate cSettingsTmpl
         (validateUpdatedItem cEnvNoneRender cSettingsTmpl cItemWork)),
       validateUpdatedItem cEnvNoneRender cSettingsTmpl cItemWork,
       [⟨LogLevel.warning,
         "The current project does not match the configured work template.",
         some (mismatchExtra cEnvNoneRender)⟩])) :=
  ⟨by decide, rfl, rfl,
   claim7_work_template_mismatch_nonfatal cEnvNoneRender cSettingsTmpl cItemWork
     cTemplateNone (by decide) rfl rfl⟩

/-- Claim C10: the EDL plugin's publish evaluates item.name.split('.')[1]
and discards it; on a name with no dot this raises IndexError before any
export or template rendering happens. -/
theorem claim10_edl_no_dot_index_error (env : Env) (settings : Settings) (item : Item)
    (h : '.' ∉ item.name.data) :
    (edlPublish env settings item).1 = Except.error PyExc.indexError ∧
    (edlPublish env settings item).2.trace.all (fun e => !(isExportEff e)) = true := by
  have hs : splitOnChar '.' item.name.data = [item.name.data] :=
    splitOnChar_of_not_mem '.' item.name.data h
  cases hg : env.getTemplateByName settings.publishTemplateValue with
  | none => constructor <;> simp [edlPublish, hs, hg, isExportEff]
  | some t => constructor <;> simp [edlPublish, hs, hg, isExportEff]

theorem claim10_edl_no_dot_index_error_witness :
    '.' ∉ "sequencefile".data ∧
    ((edlPublish cEnvRender cSettingsTmpl cItemNoDot).1 =
       Except.error PyExc.indexError ∧
     (edlPublish cEnvRender cSettingsTmpl cItemNoDot).2.trace.all
       (fun e => !(isExportEff e)) = true) :=
  ⟨by decide, claim10_edl_no_dot_index_error cEnvRender cSettingsTmpl cItemNoDot (by decide)⟩

/-- Claim C4 counterexample: an EDL run whose configured template renders no
path raises NameError (re is unbound in publish_xml.py) instead of logging
the no-render-path error and returning early without exception. -/
theorem claim4_counterexample_edl_exception :
    (edlPublish cEnvNoneRender cSettingsTmpl cItemEdl).1 =
      Except.error (PyExc.nameError "re") ∧
    (edlPublish cEnvNoneRender cSettingsTmpl cItemEdl).2.logs = [] :=
  ⟨rfl, rfl⟩

/-- Claim C4 as amended: for the movie plugin, when the rendered destination
path is absent publish logs the error and returns early with no exception
and no database registration, Version creation or upload; the EDL plugin
never reaches its identical guard: its publish always raises (IndexError or
NameError) before rendering a path, with no export and no database
effects. -/
theorem claim4_missing_path_early_return (env : Env) (settings : Settings) (item : Item)
    (v : Nat) (t : Template)
    (env2 : Env) (settings2 : Settings) (item2 : Item)
    (h1 : movieDeriveVersion item.name = some v)
    (h2 : env.getTemplateByName settings.publishTemplateValue = some t)
    (h3 : t.applyFields { base := env.asTemplateFields item.context t,
                          name := movieDeriveName item.name, version := v } = none) :
    (moviePublish env settings item).1 = Except.ok () ∧
    (moviePublish env settings item).2.logs =
      [⟨LogLevel.error, "No render path found", none⟩] ∧
    (moviePublish env settings item).2.trace.all (fun e => !(isRemoteEff e)) = true ∧
    (∃ exc, (edlPublish env2 settings2 item2).1 = Except.error exc) ∧
    (edlPublish env2 settings2 item2).2.trace.all
      (fun e => !(isRemoteEff e) && !(isExportEff e)) = true := by
  have hre : publishXmlResolves "re" = false := rfl
  refine ⟨?_, ?_, ?_, ?_, ?_⟩
  · simp [moviePublish, h1, h2, h3]
  · simp [moviePublish, h1, h2, h3]
  · simp [moviePublish, h1, h2, h3, isRemoteEff]
  · cases hdot : (splitOnChar '.' item2.name.data)[1]? with
    | none =>
      exact ⟨PyExc.indexError, by simp [edlPublish, hdot]⟩
    | some piece =>
      exact ⟨PyExc.nameError "re", by simp [edlPublish, hdot, hre]⟩
  · cases hdot : (splitOnChar '.' item2.name.data)[1]? with
    | none =>
      cases hg : env2.getTemplateByName settings2.publishTemplateValue with
      | none => simp [edlPublish, hdot, hg, isRemoteEff, isExportEff]
      | some t2 => simp [edlPublish, hdot, hg, isRemoteEff, isExportEff]
    | some piece =>
      cases hg : env2.getTemplateByName settings2.publishTemplateValue with
      | none => simp [edlPublish, hdot, hg, hre, isRemoteEff, isExportEff]
      | some t2 => simp [edlPublish, hdot, hg, hre, isRemoteEff, isExportEff]

theorem claim4_missing_path_early_return_witness :
    movieDeriveVersion cItemMovie.name = some 3 ∧
    cEnvNoneRender.getTemplateByName cSettingsTmpl.publishTemplateValue =
      some cTemplateNone ∧
    cTemplateNone.applyFields
      { base := cEnvNoneRender.asTemplateFields cItemMovie.context cTemplateNone,
        name := movieDeriveName cItemMovie.name, version := 3 } = none ∧
    ((moviePublish cEnvNoneRender cSettingsTmpl cItemMovie).1 = Except.ok () ∧
     (moviePublish cEnvNoneRender cSettingsTmpl cItemMovie).2.logs =
       [⟨LogLevel.error, "No render path found", none⟩] ∧
     (moviePublish cEnvNoneRender cSettingsTmpl cItemMovie).2.trace.all
       (fun e => !(isRemoteEff e)) = true ∧
     (∃ exc, (edlPublish cEnvRender cSettingsTmpl cItemEdl).1 = Except.error exc) ∧
     (edlPublish cEnvRender cSettingsTmpl cItemEdl).2.trace.all
       (fun e => !(isRemoteEff e) && !(isExportEff e)) = true) :=
  ⟨rfl, rfl, rfl,
   claim4_missing_path_early_return cEnvNoneRender cSettingsTmpl cItemMovie 3
     cTemplateNone cEnvRender cSettingsTmpl cItemEdl rfl rfl rfl⟩

/-- Claim C9 counterexample: an item without the sg_publish_data key whose
template renders no path makes the movie plugin's publish return normally
(early return), so missing sg_publish_data does not always fail with a
key-lookup error. -/
theorem claim9_counterexample_no_key_error :
    cItemMovieNoKey.properties.sgPublishData = none ∧
    (moviePublish cEnvNoneRender cSettingsTmpl cItemMovieNoKey).1 = Except.ok () :=
  ⟨rfl, rfl⟩

/-- Claim C9 as amended: the movie plugin's publish reads and mutates
sg_publish_data before delegating to the superclass publish; an item whose
properties lack that key and whose run reaches that statement (version
extracted, template resolved, path rendered) fails with KeyError
sg_publish_data before any registration, Version creation or upload. -/
theorem claim9_missing_publish_data_key_error (env : Env) (settings : Settings)
    (item : Item) (v : Nat) (t : Template) (p : String)
    (h1 : movieDeriveVersion item.name = some v)
    (h2 : env.getTemplateByName settings.publishTemplateValue = some t)
    (h3 : t.applyFields { base := env.asTemplateFields item.context t,
                          name := movieDeriveName item.name, version := v } = some p)
    (h4 : item.properties.sgPublishData = none) :
    (moviePublish env settings item).1 = Except.error (PyExc.keyError "sg_publish_data") ∧
    (moviePublish env settings item).2.trace =
      [Effect.setProp "publish_template",
       Effect.exportAsMediaDirect (some p) moviePresetPath 2,
       Effect.setProp "path", Effect.setProp "publish_type"] := by
  constructor <;> simp [moviePublish, h1, h2, h3, h4]

theorem claim9_missing_publish_data_key_error_witness :
    movieDeriveVersion cItemMovieNoKey.name = some 3 ∧
    cEnvRender.getTemplateByName cSettingsTmpl.publishTemplateValue =
      some cTemplateSome ∧
    cTemplateSome.applyFields
      { base := cEnvRender.asTemplateFields cItemMovieNoKey.context cTemplateSome,
        name := movieDeriveName cItemMovieNoKey.name, version := 3 } =
      some "render_shot010_v003" ∧
    cItemMovieNoKey.properties.sgPublishData = none ∧
    ((moviePublish cEnvRender cSettingsTmpl cItemMovieNoKey).1 =
       Except.error (PyExc.keyError "sg_publish_data") ∧
     (moviePublish cEnvRender cSettingsTmpl cItemMovieNoKey).2.trace =
       [Effect.setProp "publish_template",
        Effect.exportAsMediaDirect (some "render_shot010_v003") moviePresetPath 2,
        Effect.setProp "path", Effect.setProp "publish_type"]) :=
  ⟨rfl, rfl, rfl, rfl,
   claim9_missing_publish_data_key_error cEnvRender cSettingsTmpl cItemMovieNoKey 3
     cTemplateSome "render_shot010_v003" rfl rfl rfl rfl⟩

/-- Claim C6 counterexample: in a complete successful movie-plugin run the
returned version data is stored onto the item before the upload call, not
after it, contradicting the claimed create-upload-store order. -/
theorem claim6_counterexample_store_order :
    ((moviePublish cEnvRender cSettingsTmpl cItemMovie).2.trace.findIdx isSgCreateEff <
       (moviePublish cEnvRender cSettingsTmpl cItemMovie).2.trace.findIdx
         isSetVersionDataEff) ∧
    ((moviePublish cEnvRender cSettingsTmpl cItemMovie).2.trace.findIdx
       isSetVersionDataEff <
       (moviePublish cEnvRender cSettingsTmpl cItemMovie).2.trace.findIdx isSgUploadEff) ∧
    ((moviePublish cEnvRender cSettingsTmpl cItemMovie).2.trace.findIdx isSgUploadEff <
       (moviePublish cEnvRender cSettingsTmpl cItemMovie).2.trace.length) := by
  refine ⟨?_, ?_, ?_⟩ <;> decide

/-- Claim C6 as amended: after the superclass publish the movie plugin
creates a Version whose payload carries project, code, description, linked
entity, task, movie path and the published-files list, then stores the
returned version data on the item, then uploads the movie to
sg_uploaded_movie of the record with the returned id, and finally stores
the upload path — the version-data store precedes the upload. -/
theorem claim6_version_create_upload_order (env : Env) (settings : Settings)
    (item : Item) (v : Nat) (t : Template) (p : String) (pd : PublishData)
    (h1 : movieDeriveVersion item.name = some v)
    (h2 : env.getTemplateByName settings.publishTemplateValue = some t)
    (h3 : t.applyFields { base := env.asTemplateFields item.context t,
                          name := movieDeriveName item.name, version := v } = some p)
    (h4 : item.properties.sgPublishData = some pd) :
    (moviePublish env settings item).1 = Except.ok () ∧
    (moviePublish env settings item).2.trace =
      [Effect.setProp "publish_template",
       Effect.exportAsMediaDirect (some p) moviePresetPath 2,
       Effect.setProp "path", Effect.setProp "publish_type",
       Effect.setProp "sg_publish_data", Effect.superPublish,
       Effect.sgCreate "Version" (movieVersionPayload env item t p pd),
       Effect.setProp "sg_version_data",
       Effect.sgUpload "Version" (env.create (movieVersionPayload env item t p pd)).id p
         "sg_uploaded_movie",
       Effect.setProp "upload_path"] ∧
    (movieVersionPayload env item t p pd).project = item.context.project ∧
    (movieVersionPayload env item t p pd).code = env.filenameOf p ∧
    (movieVersionPayload env item t p pd).description = item.description ∧
    (movieVersionPayload env item t p pd).entity = movieGetVersionEntity item ∧
    (movieVersionPayload env item t p pd).sgTask = item.context.task ∧
    (movieVersionPayload env item t p pd).sgPathToMovie = p ∧
    (movieVersionPayload env item t p pd).publishedFiles.isSome = true ∧
    (moviePublish env settings item).2.item.properties.uploadPath = some p ∧
    (moviePublish env settings item).2.item.properties.sgVersionData =
      some (env.create (movieVersionPayload env item t p pd)) := by
  refine ⟨?_, ?_, rfl, rfl, rfl, rfl, rfl, rfl, ?_, ?_, ?_⟩ <;>
    simp [moviePublish, movieVersionPayload, moviePropsAtSuper, h1, h2, h3, h4]

theorem claim6_version_create_upload_order_witness :
    movieDeriveVersion cItemMovie.name = some 3 ∧
    cEnvRender.getTemplateByName cSettingsTmpl.publishTemplateValue =
      some cTemplateSome ∧
    cTemplateSome.applyFields
      { base := cEnvRender.asTemplateFields cItemMovie.context cTemplateSome,
        name := movieDeriveName cItemMovie.name, version := 3 } =
      some "render_shot010_v003" ∧
    cItemMovie.properties.sgPublishData = some cPublishData ∧
    ((moviePublish cEnvRender cSettingsTmpl cItemMovie).1 = Except.ok () ∧
     (moviePublish cEnvRender cSettingsTmpl cItemMovie).2.trace =
       [Effect.setProp "publish_template",
        Effect.exportAsMediaDirect (some "render_shot010_v003") moviePresetPath 2,
        Effect.setProp "path", Effect.setProp "publish_type",
        Effect.setProp "sg_publish_data", Effect.superPublish,
        Effect.sgCreate "Version"
          (movieVersionPayload cEnvRender cItemMovie cTemplateSome
            "render_shot010_v003" cPublishData),
        Effect.setProp "sg_version_data",
        Effect.sgUpload "Version"
          (cEnvRender.create (movieVersionPayload cEnvRender cItemMovie cTemplateSome
            "render_shot010_v003" cPublishData)).id "render_shot010_v003"
          "sg_uploaded_movie",
        Effect.setProp "upload_path"] ∧
     (movieVersionPayload cEnvRender cItemMovie cTemplateSome "render_shot010_v003"
        cPublishData).project = cItemMovie.context.project ∧
     (movieVersionPayload cEnvRender cItemMovie cTemplateSome "render_shot010_v003"
        cPublishData).code = cEnvRender.filenameOf "render_shot010_v003" ∧
     (movieVersionPayload cEnvRender cItemMovie cTemplateSome "render_shot010_v003"
        cPublishData).description = cItemMovie.description ∧
     (movieVersionPayload cEnvRender cItemMovie cTemplateSome "render_shot010_v003"
        cPublishData).entity = movieGetVersionEntity cItemMovie ∧
     (movieVersionPayload cEnvRender cItemMovie cTemplateSome "render_shot010_v003"
        cPublishData).sgTask = cItemMovie.context.task ∧
     (movieVersionPayload cEnvRender cItemMovie cTemplateSome "render_shot010_v003"
        cPublishData).sgPathToMovie = "render_shot010_v003" ∧
     (movieVersionPayload cEnvRender cItemMovie cTemplateSome "render_shot010_v003"
        cPublishData).publishedFiles.isSome = true ∧
     (moviePublish cEnvRender cSettingsTmpl cItemMovie).2.item.properties.uploadPath =
       some "render_shot010_v003" ∧
     (moviePublish cEnvRender cSettingsTmpl cItemMovie).2.item.properties.sgVersionData =
       some (cEnvRender.create (movieVersionPayload cEnvRender cItemMovie cTemplateSome
         "render_shot010_v003" cPublishData))) :=
  ⟨rfl, rfl, rfl, rfl,
   claim6_version_create_upload_order cEnvRender cSettingsTmpl cItemMovie 3
     cTemplateSome "render_shot010_v003" cPublishData rfl rfl rfl rfl⟩

end TkPremiere
